import Mathlib

/-!
Shallow embedding of the `box` Go package: the generic wrapper types
`Optional[T]` and `Nullable[T]`, their JSON (un)marshalling methods, the
package-private serialization delegate `marshalJSON` / `unmarshalJSON`, and
the database scan adapters.  Go byte slices of JSON text are modelled as
`String`, Go `error` values as `Option Err` (with `Option.none` standing for
the `nil` error), and a Go panic as a distinguished result constructor.
Pointer-receiver methods are modelled as state-passing functions returning the
updated receiver together with the returned error.
-/

deriving instance DecidableEq for Except

namespace Box

/-- JSON/text bytes (Go `[]byte`) modelled as strings. -/
abbrev ByteStr := String

/-- Opaque Go `error` values modelled by their message strings. -/
abbrev Err := String

/-- Result of a Go call that can return a value, return an error, or panic. -/
inductive PRes (α : Type) where
  | ok : α → PRes α
  | err : Err → PRes α
  | panicked : String → PRes α
deriving DecidableEq

/-- Serialization capabilities of a Go element type `T`, as inspected by the
delegate `marshalJSON` / `unmarshalJSON`: the optional `json.Marshaler` /
`json.Unmarshaler` hooks, the optional `encoding.TextMarshaler` /
`encoding.TextUnmarshaler` hooks (each `Option.none` when `T` does not
implement the interface), and the default structural `encoding/json` codec
for `T`.  Decode functions take the decode target's prior value (the contents
behind the Go pointer) and return the updated value or the decode error; on
error the prior contents are kept. -/
structure Elem (T : Type) where
  jsonMarshal : Option (T → Except Err ByteStr)
  textMarshal : Option (T → Except Err ByteStr)
  jsonUnmarshal : Option (ByteStr → T → Except Err T)
  textUnmarshal : Option (ByteStr → T → Except Err T)
  defMarshal : T → Except Err ByteStr
  defUnmarshal : ByteStr → T → Except Err T

/-- The package-private encode delegate `marshalJSON[T any](v T)`: use the
`json.Marshaler` hook when implemented, else the `encoding.TextMarshaler`
hook, else `json.Marshal`. -/
def marshalJSON {T : Type} (e : Elem T) (v : T) : Except Err ByteStr :=
  match e.jsonMarshal with
  | Option.some f => f v
  | Option.none =>
    match e.textMarshal with
    | Option.some f => f v
    | Option.none => e.defMarshal v

/-- The package-private decode delegate `unmarshalJSON[T any](data []byte, ptr *T)`:
use the `json.Unmarshaler` hook when implemented, else the
`encoding.TextUnmarshaler` hook, else `json.Unmarshal`. -/
def unmarshalJSON {T : Type} (e : Elem T) (data : ByteStr) (old : T) : Except Err T :=
  match e.jsonUnmarshal with
  | Option.some g => g data old
  | Option.none =>
    match e.textUnmarshal with
    | Option.some g => g data old
    | Option.none => e.defUnmarshal data old

/-- `Optional[T]`: a present flag `some` and the stored value `v`.
Go's zero value for `T` is modelled by `Inhabited.default`. -/
structure Optional (T : Type) where
  some : Bool
  v : T
deriving DecidableEq

/-- `Some[T any](val T) Optional[T]`. -/
def Some {T : Type} (val : T) : Optional T :=
  { some := true, v := val }

/-- `None[T any]() Optional[T]`: the zero value of `Optional[T]`. -/
def None {T : Type} [Inhabited T] : Optional T :=
  { some := false, v := default }

/-- `Optional.IsSome`. -/
def Optional.IsSome {T : Type} (opt : Optional T) : Bool :=
  opt.some

/-- `Optional.IsNone`. -/
def Optional.IsNone {T : Type} (opt : Optional T) : Bool :=
  !opt.some

/-- `Optional.Get`: panics when the value is not present, else returns `v`. -/
def Optional.Get {T : Type} (opt : Optional T) : PRes T :=
  if opt.some then PRes.ok opt.v else PRes.panicked "value is not presented"

/-- `Optional.IsZero`: true for `None`; consulted by the structural encoder's
omitzero option. -/
def Optional.IsZero {T : Type} (opt : Optional T) : Bool :=
  !opt.some

/-- `Optional.MarshalJSON`: panics on a `None` receiver, else delegates to
`marshalJSON` on the stored value. -/
def Optional.MarshalJSON {T : Type} (e : Elem T) (opt : Optional T) : PRes ByteStr :=
  if opt.some then
    match marshalJSON e opt.v with
    | Except.ok bs => PRes.ok bs
    | Except.error er => PRes.err er
  else
    PRes.panicked "unable to marshal zero Optional[T] to JSON, use `json:\",omitzero\"` annotation for struct fields"

/-- `Optional.UnmarshalJSON`: runs the decode delegate on the stored value,
sets `some` to whether the delegate succeeded (`opt.some = err == nil`), and
returns the `nil` error unconditionally (`return nil`).  On a failed decode
the stored value keeps its prior contents. -/
def Optional.UnmarshalJSON {T : Type} (e : Elem T) (data : ByteStr) (opt : Optional T) :
    Optional T × Option Err :=
  match unmarshalJSON e data opt.v with
  | Except.ok v1 => ({ some := true, v := v1 }, Option.none)
  | Except.error _ => ({ some := false, v := opt.v }, Option.none)

/-- `Optional.Scan`: scans `src` into a fresh zero `sql.Null[T]`; on error the
error is returned and the receiver is untouched, else the receiver's fields
are set from the scanned `Valid` flag and value.  The behaviour of
`sql.Null[T].Scan` on a fresh zero receiver (standard library code) is
abstracted as the `scanner` argument, returning either the conversion error
or the resulting `(Valid, V)` pair. -/
def Optional.Scan {T S : Type} (scanner : S → Except Err (Bool × T)) (src : S)
    (opt : Optional T) : Optional T × Option Err :=
  match scanner src with
  | Except.error er => (opt, Option.some er)
  | Except.ok p => ({ some := p.1, v := p.2 }, Option.none)

/-- `Nullable[T]`: a `valid` flag and the stored value `v`, same shape as
`Optional`. -/
structure Nullable (T : Type) where
  valid : Bool
  v : T
deriving DecidableEq

/-- `Valid[T any](val T) Nullable[T]`. -/
def Valid {T : Type} (val : T) : Nullable T :=
  { valid := true, v := val }

/-- `Null[T any]() Nullable[T]`: the zero value of `Nullable[T]`. -/
def Null {T : Type} [Inhabited T] : Nullable T :=
  { valid := false, v := default }

/-- `Optional.ToNullable`. -/
def Optional.ToNullable {T : Type} (opt : Optional T) : Nullable T :=
  { valid := opt.some, v := opt.v }

/-- The package-level `nullStrBytes = []byte("null")`. -/
def nullStrBytes : ByteStr := "null"

/-- `Nullable.MarshalJSON`: `null` for an invalid receiver, else the encode
delegate on the stored value. -/
def Nullable.MarshalJSON {T : Type} (e : Elem T) (n : Nullable T) : Except Err ByteStr :=
  if n.valid then marshalJSON e n.v else Except.ok nullStrBytes

/-- `Nullable.UnmarshalJSON`: when the input is byte-for-byte `null`
(`bytes.Equal(data, nullStrBytes)`) the receiver is reset to `Null[T]()` and
the `nil` error returned; otherwise the decode delegate runs on the stored
value, `valid` is set to whether it succeeded, and the delegate's error is
returned. -/
def Nullable.UnmarshalJSON {T : Type} [Inhabited T] (e : Elem T) (data : ByteStr)
    (n : Nullable T) : Nullable T × Option Err :=
  if data = nullStrBytes then
    (Null, Option.none)
  else
    match unmarshalJSON e data n.v with
    | Except.ok v1 => ({ valid := true, v := v1 }, Option.none)
    | Except.error er => ({ valid := false, v := n.v }, Option.some er)

/-- `Nullable.Scan` as written in the source: the body declares a local zero
`var sqlNull sql.Null[T]` but then invokes `n.Scan(src)` — the method being
defined, on its own receiver — instead of `sqlNull.Scan(src)`, so the call
recurses unconditionally before anything else happens.  The `Nat` argument
bounds the recursion depth; `Option.none` means no result is produced within
that depth.  Were the recursive call ever to return, a non-nil error would be
returned as-is and otherwise the receiver's fields would be set from the
never-scanned zero `sqlNull` (`valid = false`, `v` = zero value). -/
def Nullable.ScanFuel {T : Type} [Inhabited T] {S : Type} (src : S) :
    Nat → Nullable T → Option (Nullable T × Option Err)
  | 0, _ => Option.none
  | fuel + 1, n =>
    match Nullable.ScanFuel src fuel n with
    | Option.none => Option.none
    | Option.some (n1, Option.some er) => Option.some (n1, Option.some er)
    | Option.some (_, Option.none) =>
      Option.some ({ valid := false, v := default }, Option.none)

/-- Modelled from the spec: `Optional2[T]`, the two-level optional of §4.4,
is a wrapper embedding an `Optional[Optional[T]]`.  Its defining source file
is not under `src/`; only its example test and the spec describe it. -/
structure Optional2 (T : Type) where
  o : Optional (Optional T)
deriving DecidableEq

/-- Modelled from the spec: `Some2` wraps a given inner `Optional` as
outer-present. -/
def Some2 {T : Type} (inner : Optional T) : Optional2 T :=
  ⟨{ some := true, v := inner }⟩

/-- Modelled from the spec: `None2` is the outer-absent state, the zero value
of `Optional2[T]`. -/
def None2 {T : Type} [Inhabited T] : Optional2 T :=
  ⟨{ some := false, v := { some := false, v := default } }⟩

/-- Modelled from the spec: the two-level structural decode delegates to the
inner `Optional`'s decode (the promoted `Optional[Optional[T]].UnmarshalJSON`,
whose delegate finds the inner `Optional`'s own `json.Unmarshaler` hook) and
then marks the outer level present unconditionally, reporting success even if
the inner decode failed. -/
def Optional2.UnmarshalJSON {T : Type} (e : Elem T) (data : ByteStr) (o2 : Optional2 T) :
    Optional2 T × Option Err :=
  let r := Optional.UnmarshalJSON e data o2.o.v
  (⟨{ some := true, v := r.1 }⟩, Option.none)

/-- Numeric value of a decimal digit character. -/
def digitVal (c : Char) : Nat :=
  c.toNat - 48

/-- All characters are decimal digits. -/
def isDigits (l : List Char) : Bool :=
  l.all fun c => c.isDigit

/-- Decimal digits to a number. -/
def digitsToNat (l : List Char) : Nat :=
  l.foldl (fun acc c => 10 * acc + digitVal c) 0

/-- Concrete `Elem` for Go `int`, which implements none of the four hook
interfaces.  The default codec models the documented `encoding/json`
behaviour on the inputs exercised below: a value encodes as its decimal
digits; decoding the exact token `null` is a no-op that keeps the prior value
and reports no error (per the `encoding/json` documentation, unmarshalling a
JSON null into a non-reference Go type has no effect); a token of decimal
digits decodes to that number; other inputs are decode errors. -/
def intElem : Elem Int where
  jsonMarshal := Option.none
  textMarshal := Option.none
  jsonUnmarshal := Option.none
  textUnmarshal := Option.none
  defMarshal := fun n => Except.ok (toString n)
  defUnmarshal := fun data old =>
    if data = "null" then Except.ok old
    else if !data.data.isEmpty && isDigits data.data then
      Except.ok (Int.ofNat (digitsToNat data.data))
    else Except.error "json: cannot unmarshal into int"

/-- Body of a JSON string after the opening quote: succeeds when the
remaining characters are escape-free and end with the closing quote. -/
def parseJsonStringBody : List Char → Option (List Char)
  | [] => Option.none
  | ['"'] => Option.some []
  | '"' :: _ :: _ => Option.none
  | '\\' :: _ => Option.none
  | c :: rest => (parseJsonStringBody rest).map fun l => c :: l

/-- Concrete `Elem` for Go `string`, which implements none of the four hook
interfaces.  The default codec models the documented `encoding/json`
behaviour on the inputs exercised below: a value encodes quoted; decoding the
exact token `null` is a no-op keeping the prior value with no error; a quoted
escape-free string decodes to its body; other inputs are decode errors. -/
def strElem : Elem String where
  jsonMarshal := Option.none
  textMarshal := Option.none
  jsonUnmarshal := Option.none
  textUnmarshal := Option.none
  defMarshal := fun s => Except.ok ("\"" ++ s ++ "\"")
  defUnmarshal := fun data old =>
    if data = "null" then Except.ok old
    else
      match data.data with
      | '"' :: rest =>
        match parseJsonStringBody rest with
        | Option.some body => Except.ok (String.mk body)
        | Option.none => Except.error "json: cannot unmarshal into string"
      | _ => Except.error "json: cannot unmarshal into string"

/-- An `Elem` for `int` with both structured-JSON hooks implemented, for
exercising the delegate's first-priority branch. -/
def intElemJson : Elem Int :=
  { intElem with
    jsonMarshal := Option.some fun _ => Except.ok "J"
    jsonUnmarshal := Option.some fun _ _ => Except.ok 1 }

/-- An `Elem` for `int` with only the text hooks implemented, for exercising
the delegate's second-priority branch. -/
def intElemText : Elem Int :=
  { intElem with
    textMarshal := Option.some fun _ => Except.ok "T"
    textUnmarshal := Option.some fun _ _ => Except.ok 2 }

/-- The three-field form of the `ExampleOptional2_use` test. -/
structure Form where
  A : Optional2 String
  B : Optional2 String
  C : Optional2 String
deriving DecidableEq

/-- Modelled from the spec: the structural decode of the document
`{"A": "str", "B": null}` into a zero `Form`.  The structural decoder calls
each present field's `UnmarshalJSON` hook with that field's raw bytes
(including the raw token `null` for an explicit null) and leaves fields
missing from the input at their zero value. -/
def decodeExampleForm : Form where
  A := (Optional2.UnmarshalJSON strElem "\"str\"" None2).1
  B := (Optional2.UnmarshalJSON strElem "null" None2).1
  C := None2

/-- C1, counterexample: marshalling the absent `Optional[int]` does not return
the null literal bytes — it panics. -/
theorem optional_marshal_none_not_null_cex :
    Optional.MarshalJSON intElem (None : Optional Int) ≠ PRes.ok "null" ∧
    Optional.MarshalJSON intElem (None : Optional Int) =
      PRes.panicked "unable to marshal zero Optional[T] to JSON, use `json:\",omitzero\"` annotation for struct fields" := by
  decide

/-- C1, amended: for every type `T`, calling `Optional[T].MarshalJSON` on an
absent (`None`) value panics with the message directing callers to the
omitzero annotation, rather than returning the null literal. -/
theorem optional_marshal_none_panics {T : Type} (e : Elem T) (opt : Optional T)
    (h : opt.some = false) :
    Optional.MarshalJSON e opt =
      PRes.panicked "unable to marshal zero Optional[T] to JSON, use `json:\",omitzero\"` annotation for struct fields" := by
  simp [Optional.MarshalJSON, h]

/-- C1, witness for the amended theorem at `T = int`. -/
theorem optional_marshal_none_panics_witness :
    Optional.MarshalJSON intElem (None : Optional Int) =
      PRes.panicked "unable to marshal zero Optional[T] to JSON, use `json:\",omitzero\"` annotation for struct fields" :=
  optional_marshal_none_panics intElem None rfl

/-- C2: evaluating `Optional[int].UnmarshalJSON` on the input `null` — the
receiver is not reset to `None`; the decode delegate treats `null` as a
successful no-op, so `some` is set to `true` and the prior stored value kept:
a `Some 5` receiver stays `Some 5` and even a `None` receiver becomes
`Some 0`, contradicting the claimed reset to the absent state. -/
theorem optional_unmarshal_null_marks_present_eval :
    Optional.UnmarshalJSON intElem "null" (Some (5 : Int)) = (Some 5, Option.none) ∧
    Optional.UnmarshalJSON intElem "null" (None : Optional Int) = (Some 0, Option.none) ∧
    (Some (0 : Int)) ≠ (None : Optional Int) := by
  decide

/-- C3: evaluating `Optional[int].UnmarshalJSON` on malformed input — the
underlying decode fails with an error, yet the method returns the `nil`
error (the failure is silently discarded); only the `some` flag records the
failure. -/
theorem optional_unmarshal_error_swallowed_eval :
    unmarshalJSON intElem "bad" (0 : Int) = Except.error "json: cannot unmarshal into int" ∧
    Optional.UnmarshalJSON intElem "bad" (None : Optional Int) = (None, Option.none) := by
  decide

/-- C4: `Nullable[T].Scan` never terminates — its body recursively invokes the
method itself on its own receiver instead of scanning the local `sql.Null`
variable, so no recursion depth suffices to produce any result (neither a
receiver update nor an error). -/
theorem nullable_scan_never_terminates {T : Type} [Inhabited T] {S : Type} (src : S)
    (fuel : Nat) (n : Nullable T) :
    Nullable.ScanFuel src fuel n = Option.none := by
  induction fuel with
  | zero => rfl
  | succ k ih => simp [Nullable.ScanFuel, ih]

/-- C5: the serialization delegate resolves the codec in priority order —
the structured `json.Marshaler`/`json.Unmarshaler` hook when implemented,
else the text `TextMarshaler`/`TextUnmarshaler` hook when implemented, else
the default structural codec — and returns the chosen codec's result or
error unchanged, with no wrapping. -/
theorem delegate_priority_order {T : Type} (e : Elem T) (v : T) (data : ByteStr) (old : T) :
    (∀ f, e.jsonMarshal = Option.some f → marshalJSON e v = f v) ∧
    (∀ f, e.jsonMarshal = Option.none → e.textMarshal = Option.some f →
      marshalJSON e v = f v) ∧
    (e.jsonMarshal = Option.none → e.textMarshal = Option.none →
      marshalJSON e v = e.defMarshal v) ∧
    (∀ g, e.jsonUnmarshal = Option.some g → unmarshalJSON e data old = g data old) ∧
    (∀ g, e.jsonUnmarshal = Option.none → e.textUnmarshal = Option.some g →
      unmarshalJSON e data old = g data old) ∧
    (e.jsonUnmarshal = Option.none → e.textUnmarshal = Option.none →
      unmarshalJSON e data old = e.defUnmarshal data old) := by
  refine ⟨?_, ?_, ?_, ?_, ?_, ?_⟩ <;> intros <;> simp_all [marshalJSON, unmarshalJSON]

/-- C5, witness: each of the six resolution branches at concrete element
types (hooks present, text hooks only, no hooks). -/
theorem delegate_priority_order_witness :
    marshalJSON intElemJson 0 = Except.ok "J" ∧
    marshalJSON intElemText 0 = Except.ok "T" ∧
    marshalJSON intElem 5 = Except.ok "5" ∧
    unmarshalJSON intElemJson "x" 0 = Except.ok 1 ∧
    unmarshalJSON intElemText "x" 0 = Except.ok 2 ∧
    unmarshalJSON intElem "7" 0 = Except.ok 7 := by
  refine ⟨?_, ?_, ?_, ?_, ?_, ?_⟩
  · exact (delegate_priority_order intElemJson 0 "x" 0).1 _ rfl
  · exact (delegate_priority_order intElemText 0 "x" 0).2.1 _ rfl rfl
  · exact Eq.trans ((delegate_priority_order intElem 5 "7" 0).2.2.1 rfl rfl) (by decide)
  · exact (delegate_priority_order intElemJson 0 "x" 0).2.2.2.1 _ rfl
  · exact (delegate_priority_order intElemText 0 "x" 0).2.2.2.2.1 _ rfl rfl
  · exact Eq.trans ((delegate_priority_order intElem 5 "7" 0).2.2.2.2.2 rfl rfl) (by decide)

/-- C6: evaluating the decode of `{"A": "str", "B": null}` into three
two-level-optional string fields.  `A` and `C` come out as the test expects
(outer-present/inner-present `"str"` and outer-absent), but `B` comes out
outer-present/inner-present with the zero string — not
outer-present/inner-absent — because the inner `Optional` decode treats
`null` as a successful no-op decode and marks the inner level present. -/
theorem optional2_decode_example_eval :
    decodeExampleForm.A = Some2 (Some "str") ∧
    decodeExampleForm.B = Some2 (Some "") ∧
    decodeExampleForm.B ≠ Some2 (None : Optional String) ∧
    decodeExampleForm.C = None2 := by
  decide

/-- C7: for every element type whose codec round-trips `v` — marshalling
`Some v` yields bytes `bs` and the decode delegate maps `bs` back to `v` —
unmarshalling `bs` into any `Optional` receiver yields the present instance
`Some v` (with the `nil` error). -/
theorem optional_roundtrip_some {T : Type} (e : Elem T) (v : T) (bs : ByteStr)
    (opt : Optional T)
    (_h1 : Optional.MarshalJSON e (Some v) = PRes.ok bs)
    (h2 : unmarshalJSON e bs opt.v = Except.ok v) :
    Optional.UnmarshalJSON e bs opt = (Some v, Option.none) := by
  simp [Optional.UnmarshalJSON, h2, Some]

/-- C7, witness at `T = int`, `v = 5`: `Some 5` marshals to `"5"`, which
unmarshals back to `Some 5`. -/
theorem optional_roundtrip_some_witness :
    Optional.UnmarshalJSON intElem "5" (None : Optional Int) = (Some 5, Option.none) :=
  optional_roundtrip_some intElem 5 "5" None (by decide) (by decide)

/-- C8: `Some(v).Get()` returns `v`, and calling `Get` on an absent
`Optional` panics (an unrecoverable fault, not an error result). -/
theorem optional_get_spec {T : Type} (v : T) (opt : Optional T) :
    Optional.Get (Some v) = PRes.ok v ∧
    (opt.some = false → Optional.Get opt = PRes.panicked "value is not presented") := by
  constructor
  · simp [Optional.Get, Some]
  · intro h
    simp [Optional.Get, h]

/-- C8, witness at `T = int`: `Get` on `Some 5` and on `None`. -/
theorem optional_get_spec_witness :
    Optional.Get (Some (5 : Int)) = PRes.ok 5 ∧
    Optional.Get (None : Optional Int) = PRes.panicked "value is not presented" :=
  ⟨(optional_get_spec (5 : Int) (None : Optional Int)).1,
   (optional_get_spec (5 : Int) (None : Optional Int)).2 rfl⟩

/-- C9: `Nullable[T].UnmarshalJSON` takes the null branch exactly when the
input is byte-for-byte `null`, resetting the receiver to `Null` with no
error; any other input goes to the decode delegate, with `valid` set iff the
decode succeeded and the delegate's error returned to the caller. -/
theorem nullable_unmarshal_exact_null {T : Type} [Inhabited T] (e : Elem T)
    (data : ByteStr) (n : Nullable T) :
    (data = nullStrBytes → Nullable.UnmarshalJSON e data n = (Null, Option.none)) ∧
    (data ≠ nullStrBytes → ∀ v1, unmarshalJSON e data n.v = Except.ok v1 →
      Nullable.UnmarshalJSON e data n = (Valid v1, Option.none)) ∧
    (data ≠ nullStrBytes → ∀ er, unmarshalJSON e data n.v = Except.error er →
      Nullable.UnmarshalJSON e data n =
        ({ valid := false, v := n.v }, Option.some er)) := by
  refine ⟨?_, ?_, ?_⟩
  · intro h
    simp [Nullable.UnmarshalJSON, h]
  · intro h v1 h1
    simp [Nullable.UnmarshalJSON, h, h1, Valid]
  · intro h er h1
    simp [Nullable.UnmarshalJSON, h, h1]

/-- C9, witness at `T = int`: the exact token `null` resets to `Null`; the
input `7` decodes to `Valid 7` with no error; the malformed input sets
`valid` to false and returns the decode error. -/
theorem nullable_unmarshal_exact_null_witness :
    Nullable.UnmarshalJSON intElem "null" (Valid (5 : Int)) = (Null, Option.none) ∧
    Nullable.UnmarshalJSON intElem "7" (Null : Nullable Int) = (Valid 7, Option.none) ∧
    Nullable.UnmarshalJSON intElem "bad" (Null : Nullable Int) =
      ({ valid := false, v := 0 }, Option.some "json: cannot unmarshal into int") := by
  refine ⟨?_, ?_, ?_⟩
  · exact (nullable_unmarshal_exact_null intElem "null" (Valid 5)).1 rfl
  · exact (nullable_unmarshal_exact_null intElem "7" Null).2.1 (by decide) 7 (by decide)
  · exact (nullable_unmarshal_exact_null intElem "bad" Null).2.2 (by decide) _ (by decide)

/-- C10: whenever `Optional[T].Scan` returns a non-nil error, the receiver is
left completely unchanged — both the presence flag and the stored value. -/
theorem optional_scan_error_preserves_receiver {T S : Type}
    (scanner : S → Except Err (Bool × T)) (src : S) (opt : Optional T) (er : Err)
    (h : (Optional.Scan scanner src opt).2 = Option.some er) :
    (Optional.Scan scanner src opt).1 = opt := by
  cases hs : scanner src with
  | error e => simp [Optional.Scan, hs]
  | ok p =>
    exfalso
    simp [Optional.Scan, hs] at h

/-- C10, witness: a scanner that fails with a conversion error leaves a
`Some 7` receiver intact. -/
theorem optional_scan_error_preserves_receiver_witness :
    (Optional.Scan (fun _ : Unit => (Except.error "conv" : Except Err (Bool × Int))) ()
      (Some 7)).1 = Some 7 :=
  optional_scan_error_preserves_receiver
    (fun _ : Unit => (Except.error "conv" : Except Err (Bool × Int))) () (Some 7) "conv" rfl

end Box
